import Mathlib

/-!
Shallow embedding of two source files of this repository:

* `paddlenlp/peft/vera/vera_layers.py` — class `VeRALinear`, a mergeable
  low-rank (VeRA) adapter around a dense linear layer;
* `paddlenlp/peft/reft/pareft/reft_model.py` — `count_parameters` and
  `ReftModel.print_trainable_parameters`, the trainable-parameter accountant.

Tensors are modelled over `ℚ` (exact arithmetic); a weight of shape
`[in_features, out_features]` becomes `Matrix (Fin nf) (Fin mf) ℚ` and
`paddle.nn.functional.linear x weight bias` becomes
`Matrix.vecMul x weight + bias` (row-vector times matrix, as in paddle).
Stochastic dropout is modelled as an opaque function field; the external
SVD routine used by the PiSSA path is modelled by passing its outputs
(`Ur`, `sqrt Sr`, `Vhr`) as inputs to the initializer.
-/

/-- A donor `paddle.nn.Linear` module (the `base_linear_module` argument of
`VeRALinear.__init__`): it carries a weight of shape
`[in_features, out_features]` and a bias of shape `[out_features]`. -/
structure DonorLinear (nf mf : ℕ) where
  weight : Matrix (Fin nf) (Fin mf) ℚ
  bias : Fin mf → ℚ

/-- The donor layer's own unmodified affine forward map,
`F.linear(x, weight, bias) = x @ weight + bias`. -/
def DonorLinear.output {nf mf : ℕ} (d : DonorLinear nf mf) (x : Fin nf → ℚ) :
    Fin mf → ℚ :=
  Matrix.vecMul x d.weight + d.bias

/-- State of a `VeRALinear` layer (vera_layers.py, lines 25-103).
`nf`/`mf`/`r` are `in_features`/`out_features`/rank.  The per-tensor
`stop_gradient` flags of the base weight and of the bias are carried
explicitly so that the freezing side effect of the constructor (line 101)
can be stated.  `training` is the mode flag maintained by the inherited
`paddle.nn.Layer.train()` / `.eval()` calls. -/
structure VeRALinear (nf mf r : ℕ) where
  weight : Matrix (Fin nf) (Fin mf) ℚ
  bias : Fin mf → ℚ
  lora_A : Matrix (Fin nf) (Fin r) ℚ
  lora_B : Matrix (Fin r) (Fin mf) ℚ
  vera_b : Fin mf → ℚ
  vera_d : Fin r → ℚ
  vera_alpha : ℚ
  scaling : ℚ
  merged : Bool
  merge_weights : Bool
  training : Bool
  vera_dropout : (Fin nf → ℚ) → (Fin nf → ℚ)
  weight_stop_gradient : Bool
  bias_stop_gradient : Bool

/-- Construction-time validation of `VeRALinear.__init__`:
line 42 raises `ValueError` unless the rank is a positive integer
(`r` is typed `ℤ` here, so the `isinstance(r, int)` half of the Python
check is carried by the type), and line 56 asserts `vera_alpha == r`
whenever `pissa_init` is requested. -/
def VeRALinear.initGuards (r : ℤ) (vera_alpha : ℤ) (pissa : Bool) :
    Except String Unit :=
  if r ≤ 0 then Except.error ("Lora rank r should be a positive integer")
  else if pissa = true ∧ vera_alpha ≠ r then
    Except.error ("pissa method requires vera_alpha=r, scaling=1")
  else Except.ok ()

/-- The `pissa_init` method (lines 105-125): given the economy SVD of the
current base weight — modelled by its externally computed pieces `Ur`
(first `r` columns of `U`), `sqrtSr` (square roots of the first `r`
singular values) and `Vhr` (first `r` rows of `Vh`) — it sets
`lora_A = Ur @ diag(sqrt Sr)`, `lora_B = diag(sqrt Sr) @ Vhr` and replaces
the base weight by the residual `weight - lora_A @ lora_B`.  The dtype
round trip of lines 109-110/121-124 is the identity in exact arithmetic. -/
def VeRALinear.pissa_init {nf mf r : ℕ} (l : VeRALinear nf mf r)
    (Ur : Matrix (Fin nf) (Fin r) ℚ) (sqrtSr : Fin r → ℚ)
    (Vhr : Matrix (Fin r) (Fin mf) ℚ) : VeRALinear nf mf r :=
  let lora_A := Ur * Matrix.diagonal sqrtSr
  let lora_B := Matrix.diagonal sqrtSr * Vhr
  { l with lora_A := lora_A, lora_B := lora_B,
           weight := l.weight - lora_A * lora_B }

/-- State assembly of `VeRALinear.__init__` (lines 39-101), after the
guards of `VeRALinear.initGuards` have passed.  External behaviour taken
from `paddle.nn.Linear.__init__` (out-of-scope collaborator): the freshly
created bias parameter is zero-initialized and trainable, and a new layer
starts in training mode.  Line 40 copies only the donor's weight; the
donor's bias is never read.  `loraA0` stands for the random Kaiming draw
of line 72 (default branch) or the throwaway placeholder of line 58
(PiSSA branch, immediately overwritten); `lora_B` starts at zero in the
default branch (line 82).  `dropFn` is the stochastic dropout transform
chosen when `vera_dropout_p > 0` (line 48); otherwise the identity is
stored (line 50).  Line 84 sets `scaling = vera_alpha / r` on both
branches, and line 101 freezes only the base weight. -/
def VeRALinear.ofBase {nf mf r : ℕ} (base_linear_module : DonorLinear nf mf)
    (vera_alpha : ℚ) (vera_dropout_p : ℚ)
    (dropFn : (Fin nf → ℚ) → (Fin nf → ℚ))
    (merge_weights : Bool) (pissa : Bool)
    (loraA0 : Matrix (Fin nf) (Fin r) ℚ)
    (Ur : Matrix (Fin nf) (Fin r) ℚ) (sqrtSr : Fin r → ℚ)
    (Vhr : Matrix (Fin r) (Fin mf) ℚ) : VeRALinear nf mf r :=
  let base : VeRALinear nf mf r :=
    { weight := base_linear_module.weight
      bias := 0
      lora_A := loraA0
      lora_B := 0
      vera_b := 1
      vera_d := 1
      vera_alpha := vera_alpha
      scaling := vera_alpha / (r : ℚ)
      merged := false
      merge_weights := merge_weights
      training := true
      vera_dropout := if 0 < vera_dropout_p then dropFn else id
      weight_stop_gradient := true
      bias_stop_gradient := false }
  if pissa then base.pissa_init Ur sqrtSr Vhr else base

/-- The `train` method (lines 128-137): `super().train()` sets the mode
flag, then, if `merge_weights` and `merged`, the low-rank term
`lora_A @ diag(vera_d) @ lora_B @ diag(vera_b) * scaling` is subtracted
back out of the base weight and `merged` is cleared. -/
def VeRALinear.train {nf mf r : ℕ} (l : VeRALinear nf mf r) :
    VeRALinear nf mf r :=
  if l.merge_weights && l.merged then
    { l with training := true,
             weight := l.weight - l.scaling •
               (l.lora_A * Matrix.diagonal l.vera_d * l.lora_B *
                 Matrix.diagonal l.vera_b),
             merged := false }
  else { l with training := true }

/-- The `eval` method (lines 138-146): `super().eval()` clears the mode
flag, then, if `merge_weights` and not `merged`, the low-rank term is
folded into the base weight and `merged` is set. -/
def VeRALinear.eval {nf mf r : ℕ} (l : VeRALinear nf mf r) :
    VeRALinear nf mf r :=
  if l.merge_weights && !l.merged then
    { l with training := false,
             weight := l.weight + l.scaling •
               (l.lora_A * Matrix.diagonal l.vera_d * l.lora_B *
                 Matrix.diagonal l.vera_b),
             merged := true }
  else { l with training := false }

/-- The `forward` method (lines 148-155): `result = F.linear(input, weight,
bias)`, and when not merged the low-rank correction
`(vera_dropout(input) @ lora_A @ diag(vera_d) @ lora_B @ diag(vera_b)) *
scaling` is added elementwise. -/
def VeRALinear.forward {nf mf r : ℕ} (l : VeRALinear nf mf r)
    (input : Fin nf → ℚ) : Fin mf → ℚ :=
  if l.merged then Matrix.vecMul input l.weight + l.bias
  else (Matrix.vecMul input l.weight + l.bias) + fun j =>
    Matrix.vecMul (l.vera_dropout input)
      (l.lora_A * Matrix.diagonal l.vera_d * l.lora_B *
        Matrix.diagonal l.vera_b) j * l.scaling

/-- A mode-transition request: the owning model calls either `train()` or
`eval()` on the layer. -/
inductive ModeOp where
  | train : ModeOp
  | eval : ModeOp

/-- Apply one mode transition. -/
def applyOp {nf mf r : ℕ} (l : VeRALinear nf mf r) : ModeOp → VeRALinear nf mf r
  | ModeOp.train => l.train
  | ModeOp.eval => l.eval

/-- Apply a sequence of mode transitions, left to right. -/
def applyOps {nf mf r : ℕ} (l : VeRALinear nf mf r) (ops : List ModeOp) :
    VeRALinear nf mf r :=
  ops.foldl applyOp l

/-- One parameter tensor of the host framework, reduced to what the
accountant reads: its element count (`numel()`) and its per-tensor
`stop_gradient` flag. -/
structure PParam where
  numel : ℕ
  stop_gradient : Bool

/-- A paddle layer/module as seen by the accountant: the flat list
returned by `model.parameters()`. -/
structure PLayer where
  params : List PParam

/-- reft_model.py, lines 21-22: count of elements across all of a module's
parameters whose gradient tracking is enabled (`not p.stop_gradient`). -/
def count_parameters (model : PLayer) : ℕ :=
  ((model.params.filter fun p => !p.stop_gradient).map PParam.numel).sum

/-- One entry of the intervention registry: an ordered collection whose
first element (`v[0]`, the only one the accountant reads, line 38) is the
parameterized intervention module. -/
structure Intervention where
  first : PLayer
  rest : List PLayer

/-- The `ReftModel` wrapper, reduced to the state
`print_trainable_parameters` reads: the intervention registry
(`self.interventions`, name to entry) and the base model (`self.model`). -/
structure ReftModel where
  interventions : List (String × Intervention)
  model : PLayer

/-- Line 36-38: sum of `count_parameters(v[0])` over every registry entry. -/
def ReftModel.trainable_intervention_parameters (m : ReftModel) : ℕ :=
  (m.interventions.map fun kv => count_parameters kv.2.first).sum

/-- Line 40: element count of base-model parameters with gradient tracking
enabled. -/
def ReftModel.trainable_model_parameters (m : ReftModel) : ℕ :=
  ((m.model.params.filter fun p => !p.stop_gradient).map PParam.numel).sum

/-- Line 42: element count of all base-model parameters. -/
def ReftModel.all_model_parameters (m : ReftModel) : ℕ :=
  (m.model.params.map PParam.numel).sum

/-- Line 44: total trainable parameters. -/
def ReftModel.total_trainable_parameters (m : ReftModel) : ℕ :=
  m.trainable_intervention_parameters + m.trainable_model_parameters

/-- `print_trainable_parameters` (lines 35-53): computes the four counts
and the trainable percentage `100 * total / all` (Python true division,
modelled over `ℚ`); when `all_model_parameters == 0` the percentage
computation raises `ZeroDivisionError`, modelled as the error branch. -/
def ReftModel.print_trainable_parameters (m : ReftModel) :
    Except String (ℕ × ℕ × ℕ × ℕ × ℚ) :=
  let tip := m.trainable_intervention_parameters
  let tmp := m.trainable_model_parameters
  let amp := m.all_model_parameters
  let total := tip + tmp
  if amp = 0 then Except.error ("ZeroDivisionError: division by zero")
  else Except.ok (tip, tmp, amp, total, 100 * (total : ℚ) / (amp : ℚ))

/-- A concrete donor layer (in_features = out_features = 1, weight 0,
bias 1) used to instantiate theorems at concrete inputs. -/
def donorEx : DonorLinear 1 1 :=
  { weight := fun _ _ => 0, bias := fun _ => 1 }

/-- A concrete default-initialized (non-PiSSA) `VeRALinear` over `donorEx`
with rank 1, `vera_alpha = 1`, no dropout, `merge_weights = true`. -/
def layerDefaultEx : VeRALinear 1 1 1 :=
  VeRALinear.ofBase donorEx 1 0 id true false 0 0 (fun _ => 0) 0

/-- A concrete reachable `VeRALinear` state with `merge_weights = true`,
unmerged, identity dropout, and nontrivial parameter values. -/
def layerEx2 : VeRALinear 1 1 1 :=
  { weight := fun _ _ => 2, bias := fun _ => 1, lora_A := fun _ _ => 3,
    lora_B := fun _ _ => 4, vera_b := fun _ => 5, vera_d := fun _ => 6,
    vera_alpha := 1, scaling := 7, merged := false, merge_weights := true,
    training := true, vera_dropout := id,
    weight_stop_gradient := true, bias_stop_gradient := false }

/-- The same concrete state as `layerEx2` but constructed with
`merge_weights = false`. -/
def layerEx7 : VeRALinear 1 1 1 :=
  { weight := fun _ _ => 2, bias := fun _ => 1, lora_A := fun _ _ => 3,
    lora_B := fun _ _ => 4, vera_b := fun _ => 5, vera_d := fun _ => 6,
    vera_alpha := 1, scaling := 7, merged := false, merge_weights := false,
    training := true, vera_dropout := id,
    weight_stop_gradient := true, bias_stop_gradient := false }

/-- A concrete `ReftModel`: a base model with 100 parameter elements of
which 10 are trainable, and one intervention whose first module has 5
trainable elements. -/
def reftModelEx : ReftModel :=
  { interventions :=
      [("layer_0",
        { first := { params := [{ numel := 5, stop_gradient := false }] },
          rest := [] })],
    model := { params := [{ numel := 10, stop_gradient := false },
                          { numel := 90, stop_gradient := true }] } }

/-- A concrete PiSSA-initialized layer over `donorEx` at rank 1, with
`vera_alpha = r = 1` and concrete externally supplied SVD factors. -/
def layerPissaEx : VeRALinear 1 1 1 :=
  VeRALinear.ofBase donorEx ((1 : ℕ) : ℚ) 0 id true true 0
    (fun _ _ => 2) (fun _ => 3) (fun _ _ => 4)

/-- Pointwise evaluation shows a row vector distributes over a scalar
multiple of a matrix. -/
theorem vecMul_smul_right {nf mf : ℕ} (x : Fin nf → ℚ) (s : ℚ)
    (M : Matrix (Fin nf) (Fin mf) ℚ) :
    Matrix.vecMul x (s • M) = s • Matrix.vecMul x M := by
  funext j
  simp only [Matrix.vecMul, Matrix.dotProduct, Matrix.smul_apply,
    smul_eq_mul, Pi.smul_apply, Finset.mul_sum]
  exact Finset.sum_congr rfl fun i _ => by ring

/-- Forward in the merged state is the plain affine map. -/
theorem VeRALinear.forward_of_merged {nf mf r : ℕ} (l : VeRALinear nf mf r)
    (x : Fin nf → ℚ) (hm : l.merged = true) :
    l.forward x = Matrix.vecMul x l.weight + l.bias := by
  unfold VeRALinear.forward
  rw [hm]
  simp

/-- Forward in the unmerged state is the affine map plus the scaled
low-rank correction. -/
theorem VeRALinear.forward_of_unmerged {nf mf r : ℕ} (l : VeRALinear nf mf r)
    (x : Fin nf → ℚ) (hm : l.merged = false) :
    l.forward x = (Matrix.vecMul x l.weight + l.bias) +
      l.scaling • Matrix.vecMul (l.vera_dropout x)
        (l.lora_A * Matrix.diagonal l.vera_d * l.lora_B *
          Matrix.diagonal l.vera_b) := by
  unfold VeRALinear.forward
  rw [hm]
  simp only [Bool.false_eq_true, if_false]
  funext j
  simp only [Pi.add_apply, Pi.smul_apply, smul_eq_mul]
  ring

/-- C1: for every input, when `merged` is false `forward(input)` equals
`input·weight + bias` plus `scaling · (dropout(input) · lora_A ·
diag(vera_d) · lora_B · diag(vera_b))`, and when `merged` is true it
equals `input·weight + bias` with no low-rank term added. -/
theorem vera_forward_formula {nf mf r : ℕ} (l : VeRALinear nf mf r)
    (x : Fin nf → ℚ) :
    l.forward x = (Matrix.vecMul x l.weight + l.bias) +
      (if l.merged then 0 else
        l.scaling • Matrix.vecMul (l.vera_dropout x)
          (l.lora_A * Matrix.diagonal l.vera_d * l.lora_B *
            Matrix.diagonal l.vera_b)) := by
  cases hm : l.merged
  · rw [VeRALinear.forward_of_unmerged l x hm]
    simp
  · rw [VeRALinear.forward_of_merged l x hm]
    simp

/-- C2: with dropout taken as the identity, `forward` on the unmerged
state and `forward` after a valid merge transition (`eval` with
`merge_weights = true`) produce the same output in exact arithmetic. -/
theorem vera_merge_transparency {nf mf r : ℕ} (l : VeRALinear nf mf r)
    (x : Fin nf → ℚ) (hmw : l.merge_weights = true) (hm : l.merged = false)
    (hd : l.vera_dropout = id) :
    (l.eval).forward x = l.forward x := by
  have he : l.eval =
      { l with
        training := false
        weight := l.weight + l.scaling •
          (l.lora_A * Matrix.diagonal l.vera_d * l.lora_B *
            Matrix.diagonal l.vera_b)
        merged := true } := by
    unfold VeRALinear.eval
    rw [hmw, hm]
    simp
  rw [he, VeRALinear.forward_of_merged _ x rfl,
    VeRALinear.forward_of_unmerged l x hm, hd]
  rw [Matrix.vecMul_add, vecMul_smul_right]
  simp only [id_eq]
  abel

/-- Witness for C2 at a concrete unmerged state and a concrete input. -/
theorem vera_merge_transparency_witness :
    (layerEx2.eval).forward (fun _ => 1) = layerEx2.forward (fun _ => 1) :=
  vera_merge_transparency layerEx2 (fun _ => 1) rfl rfl rfl

/-- C4: entering the same mode twice in a row is a no-op on the stored
weight: `train` twice leaves the weight as after the first `train`, and
likewise for `eval`. -/
theorem vera_mode_transitions_idempotent {nf mf r : ℕ}
    (l : VeRALinear nf mf r) :
    (l.train.train).weight = l.train.weight ∧
    (l.eval.eval).weight = l.eval.weight := by
  constructor
  · cases hmw : l.merge_weights <;> cases hm : l.merged <;>
      simp [VeRALinear.train, hmw, hm]
  · cases hmw : l.merge_weights <;> cases hm : l.merged <;>
      simp [VeRALinear.eval, hmw, hm]

/-- C5: construction rejects a non-positive rank (in particular `r = 0`
and `r = -1`), rejects `pissa_init = true` whenever `vera_alpha ≠ r`
(in particular `vera_alpha = 2, r = 3`), and accepts any positive rank
with `vera_alpha = r`. -/
theorem vera_init_guards_spec :
    (∀ a : ℤ, ∀ p : Bool, VeRALinear.initGuards 0 a p =
      Except.error ("Lora rank r should be a positive integer")) ∧
    (∀ a : ℤ, ∀ p : Bool, VeRALinear.initGuards (-1) a p =
      Except.error ("Lora rank r should be a positive integer")) ∧
    (∀ r a : ℤ, ∀ p : Bool, r ≤ 0 → VeRALinear.initGuards r a p =
      Except.error ("Lora rank r should be a positive integer")) ∧
    (∀ r a : ℤ, 0 < r → a ≠ r → VeRALinear.initGuards r a true =
      Except.error ("pissa method requires vera_alpha=r, scaling=1")) ∧
    (VeRALinear.initGuards 3 2 true =
      Except.error ("pissa method requires vera_alpha=r, scaling=1")) ∧
    (∀ r : ℤ, 0 < r → ∀ p : Bool,
      VeRALinear.initGuards r r p = Except.ok ()) := by
  refine ⟨fun a p => rfl, fun a p => rfl, fun r a p hr => ?_,
    fun r a hr ha => ?_, rfl, fun r hr p => ?_⟩
  · unfold VeRALinear.initGuards
    rw [if_pos hr]
  · unfold VeRALinear.initGuards
    rw [if_neg (by omega), if_pos ⟨rfl, ha⟩]
  · unfold VeRALinear.initGuards
    rw [if_neg (by omega), if_neg (by simp)]

/-- Witness for C5: a positive rank equal to `vera_alpha` passes both
guards even on the PiSSA path, a negative rank is rejected, and a PiSSA
request with a mismatched positive rank is rejected. -/
theorem vera_init_guards_spec_witness :
    VeRALinear.initGuards 4 4 true = Except.ok () ∧
    VeRALinear.initGuards (-7) 1 false =
      Except.error ("Lora rank r should be a positive integer") ∧
    VeRALinear.initGuards 5 2 true =
      Except.error ("pissa method requires vera_alpha=r, scaling=1") :=
  ⟨vera_init_guards_spec.2.2.2.2.2 4 (by norm_num) true,
   vera_init_guards_spec.2.2.1 (-7) 1 false (by norm_num),
   vera_init_guards_spec.2.2.2.1 5 2 (by norm_num) (by norm_num)⟩

/-- C3: after PiSSA construction (`pissa = true`, which requires
`vera_alpha = r`), while `vera_b` and `vera_d` still hold their initial
all-ones values, the stored base weight plus
`scaling·lora_A·diag(vera_d)·lora_B·diag(vera_b)` equals the donor
weight exactly. -/
theorem vera_pissa_reconstruction {nf mf r : ℕ} (donor : DonorLinear nf mf)
    (va p : ℚ) (dropFn : (Fin nf → ℚ) → (Fin nf → ℚ)) (mw : Bool)
    (loraA0 Ur : Matrix (Fin nf) (Fin r) ℚ) (sqrtSr : Fin r → ℚ)
    (Vhr : Matrix (Fin r) (Fin mf) ℚ)
    (hr : 0 < r) (hva : va = (r : ℚ)) :
    (VeRALinear.ofBase donor va p dropFn mw true loraA0 Ur sqrtSr Vhr).weight +
      (VeRALinear.ofBase donor va p dropFn mw true loraA0 Ur sqrtSr Vhr).scaling •
        ((VeRALinear.ofBase donor va p dropFn mw true loraA0 Ur sqrtSr Vhr).lora_A *
          Matrix.diagonal
            (VeRALinear.ofBase donor va p dropFn mw true loraA0 Ur sqrtSr Vhr).vera_d *
          (VeRALinear.ofBase donor va p dropFn mw true loraA0 Ur sqrtSr Vhr).lora_B *
          Matrix.diagonal
            (VeRALinear.ofBase donor va p dropFn mw true loraA0 Ur sqrtSr Vhr).vera_b) =
      donor.weight := by
  have hsc : va / (r : ℚ) = 1 := by
    rw [hva]
    exact div_self (by exact_mod_cast hr.ne')
  have hd1 : Matrix.diagonal (1 : Fin r → ℚ) = 1 := Matrix.diagonal_one
  have hb1 : Matrix.diagonal (1 : Fin mf → ℚ) = 1 := Matrix.diagonal_one
  simp only [VeRALinear.ofBase, VeRALinear.pissa_init, if_true, hsc, hd1,
    hb1, one_smul, Matrix.mul_one]
  abel

/-- Witness for C3 at rank 1 with concrete SVD factors. -/
theorem vera_pissa_reconstruction_witness :
    layerPissaEx.weight + layerPissaEx.scaling •
        (layerPissaEx.lora_A * Matrix.diagonal layerPissaEx.vera_d *
          layerPissaEx.lora_B * Matrix.diagonal layerPissaEx.vera_b) =
      donorEx.weight :=
  vera_pissa_reconstruction donorEx ((1 : ℕ) : ℚ) 0 id true 0
    (fun _ _ => 2) (fun _ => 3) (fun _ _ => 4) (by norm_num) rfl

/-- C6 counterexample: with default initialization over a donor whose bias
is nonzero, the adapted layer's forward output differs from the donor's
affine output, because the constructor copies only the donor's weight and
the fresh bias is zero-initialized. -/
theorem vera_zero_init_donor_bias_cex :
    VeRALinear.forward layerDefaultEx (fun _ => 0) ≠
      DonorLinear.output donorEx (fun _ => 0) := by
  intro h
  have h0 := congrFun h 0
  simp [VeRALinear.forward, layerDefaultEx, VeRALinear.ofBase,
    DonorLinear.output, donorEx, Matrix.vecMul, Matrix.dotProduct] at h0

/-- C6 amended: with default (non-PiSSA) initialization, before any
updates, `forward` equals the affine map through the copied donor weight
and the layer's freshly zero-initialized bias (the low-rank term vanishes
because `lora_B = 0`); the donor's bias is not copied, so this matches
the donor's output exactly when the donor's bias is zero. -/
theorem vera_zero_init_forward_eq_copied_weight {nf mf r : ℕ}
    (donor : DonorLinear nf mf) (va p : ℚ)
    (dropFn : (Fin nf → ℚ) → (Fin nf → ℚ)) (mw : Bool)
    (loraA0 Ur : Matrix (Fin nf) (Fin r) ℚ) (sqrtSr : Fin r → ℚ)
    (Vhr : Matrix (Fin r) (Fin mf) ℚ) (x : Fin nf → ℚ) :
    (VeRALinear.ofBase donor va p dropFn mw false loraA0 Ur sqrtSr Vhr).forward x
      = Matrix.vecMul x donor.weight := by
  rw [VeRALinear.forward_of_unmerged _ x rfl]
  simp [VeRALinear.ofBase, Matrix.mul_zero, Matrix.zero_mul,
    Matrix.vecMul_zero]

/-- C10: the constructor disables gradient tracking on the base weight
only: the bias keeps its fresh trainable flag, and a parameter carrying
the bias's flag is counted in full by `count_parameters`. -/
theorem vera_init_freezes_only_weight {nf mf r : ℕ}
    (donor : DonorLinear nf mf) (va p : ℚ)
    (dropFn : (Fin nf → ℚ) → (Fin nf → ℚ)) (mw pissa : Bool)
    (loraA0 Ur : Matrix (Fin nf) (Fin r) ℚ) (sqrtSr : Fin r → ℚ)
    (Vhr : Matrix (Fin r) (Fin mf) ℚ) :
    (VeRALinear.ofBase donor va p dropFn mw pissa loraA0 Ur sqrtSr Vhr).weight_stop_gradient
        = true ∧
    (VeRALinear.ofBase donor va p dropFn mw pissa loraA0 Ur sqrtSr Vhr).bias_stop_gradient
        = false ∧
    ∀ k : ℕ, count_parameters (PLayer.mk [PParam.mk k
      ((VeRALinear.ofBase donor va p dropFn mw pissa loraA0 Ur
        sqrtSr Vhr).bias_stop_gradient)]) = k := by
  cases pissa <;>
    simp [VeRALinear.ofBase, VeRALinear.pissa_init, count_parameters]

/-- With `merge_weights = false`, `train` only flips the mode flag. -/
theorem VeRALinear.train_of_nomerge {nf mf r : ℕ} (l : VeRALinear nf mf r)
    (hmw : l.merge_weights = false) :
    l.train = { l with training := true } := by
  unfold VeRALinear.train
  rw [hmw]
  simp

/-- With `merge_weights = false`, `eval` only flips the mode flag. -/
theorem VeRALinear.eval_of_nomerge {nf mf r : ℕ} (l : VeRALinear nf mf r)
    (hmw : l.merge_weights = false) :
    l.eval = { l with training := false } := by
  unfold VeRALinear.eval
  rw [hmw]
  simp

/-- With `merge_weights = false`, any sequence of mode transitions only
moves the mode flag: the whole remaining state is preserved. -/
theorem applyOps_of_nomerge {nf mf r : ℕ} (l : VeRALinear nf mf r)
    (ops : List ModeOp) (hmw : l.merge_weights = false) :
    ∃ t : Bool, applyOps l ops = { l with training := t } := by
  induction ops generalizing l with
  | nil => exact ⟨l.training, rfl⟩
  | cons op ops ih =>
    cases op with
    | train =>
      obtain ⟨t, ht⟩ := ih { l with training := true } hmw
      refine ⟨t, ?_⟩
      show applyOps (applyOp l ModeOp.train) ops = _
      rw [show applyOp l ModeOp.train = { l with training := true } from
        VeRALinear.train_of_nomerge l hmw]
      exact ht
    | eval =>
      obtain ⟨t, ht⟩ := ih { l with training := false } hmw
      refine ⟨t, ?_⟩
      show applyOps (applyOp l ModeOp.eval) ops = _
      rw [show applyOp l ModeOp.eval = { l with training := false } from
        VeRALinear.eval_of_nomerge l hmw]
      exact ht

/-- C7: if the layer was constructed with `merge_weights = false` (so it
starts unmerged), then every sequence of `train`/`eval` transitions leaves
the stored weight and the `merged` flag unchanged, and `forward` still
adds the low-rank term. -/
theorem vera_merge_weights_false_frame {nf mf r : ℕ} (l : VeRALinear nf mf r)
    (ops : List ModeOp) (x : Fin nf → ℚ)
    (hmw : l.merge_weights = false) (hm : l.merged = false) :
    (applyOps l ops).weight = l.weight ∧
    (applyOps l ops).merged = false ∧
    (applyOps l ops).forward x = (Matrix.vecMul x l.weight + l.bias) +
      l.scaling • Matrix.vecMul (l.vera_dropout x)
        (l.lora_A * Matrix.diagonal l.vera_d * l.lora_B *
          Matrix.diagonal l.vera_b) := by
  obtain ⟨t, ht⟩ := applyOps_of_nomerge l ops hmw
  rw [ht]
  exact ⟨rfl, hm, VeRALinear.forward_of_unmerged _ x hm⟩

/-- Witness for C7: a concrete `merge_weights = false` layer, the
transition sequence eval-then-train, and a concrete input. -/
theorem vera_merge_weights_false_frame_witness :
    (applyOps layerEx7 [ModeOp.eval, ModeOp.train]).weight = layerEx7.weight ∧
    (applyOps layerEx7 [ModeOp.eval, ModeOp.train]).merged = false ∧
    (applyOps layerEx7 [ModeOp.eval, ModeOp.train]).forward (fun _ => 1) =
      (Matrix.vecMul (fun _ => 1) layerEx7.weight + layerEx7.bias) +
        layerEx7.scaling • Matrix.vecMul (layerEx7.vera_dropout fun _ => 1)
          (layerEx7.lora_A * Matrix.diagonal layerEx7.vera_d *
            layerEx7.lora_B * Matrix.diagonal layerEx7.vera_b) :=
  vera_merge_weights_false_frame layerEx7 [ModeOp.eval, ModeOp.train]
    (fun _ => 1) rfl rfl

/-- C8: on a base model with 100 parameter elements (10 trainable) and one
intervention whose first module has 5 trainable elements, the accountant
reports 5 trainable intervention parameters, 10 trainable model
parameters, 100 model parameters, 15 total trainable parameters, and a
trainable percentage of 15. -/
theorem reft_report_counts_scenario :
    reftModelEx.print_trainable_parameters =
      Except.ok (5, 10, 100, 15, 15) := by
  norm_num [ReftModel.print_trainable_parameters,
    ReftModel.trainable_intervention_parameters,
    ReftModel.trainable_model_parameters, ReftModel.all_model_parameters,
    count_parameters, reftModelEx]

/-- C9: the accountant fails with the division error exactly when the base
model has zero parameter elements; any model with at least one parameter
element completes without error. -/
theorem reft_report_fails_iff_degenerate (m : ReftModel) :
    (∃ out, m.print_trainable_parameters = Except.ok out) ↔
      m.all_model_parameters ≠ 0 := by
  unfold ReftModel.print_trainable_parameters
  by_cases h : m.all_model_parameters = 0 <;> simp [h]
